import Mathlib

/-!
Verification of the membership-resolution logic of the wrds_tools repository
(src/wrds_tools/wrds_connection.py).

Shallow embedding conventions:
- Calendar dates are embedded as integers written in yyyymmdd form; only the
  strict monotonicity of this encoding in calendar order is used. A missing
  date (pandas NaT / None) is modelled as `none`, and — following pandas
  semantics — any order comparison against a missing date yields `false`.
- A pandas DataFrame holding the idxcst_his rows is a `List IdxRow`; a
  DataFrame with arbitrary columns is a `List Row` where a `Row` is an
  association list from column names to cell values.
- The WrdsConnection object is a `ConnState`; the remote database is the
  explicit collaborator `WrdsDb`. Python exceptions are modelled with
  `Except PyError`: `NoDatasetError` (a subclass of AttributeError in the
  source) is `PyError.noDatasetError`, and the generic AttributeError that
  Python raises when a method is called on None is `PyError.attributeError`.
-/

namespace WrdsTools

/-- Dates as integers in yyyymmdd form. -/
abbrev Date := Int

/-- One row of the compa.idxcst_his table restricted to the columns the code
touches: gvkey (entity key), gvkeyx (index key), the Python columns named
from and thru. The column named from is the joined date and thru is the
left date; from is a reserved word in Lean so the field is called joined. -/
structure IdxRow where
  gvkey : String
  gvkeyx : String
  joined : Option Date
  thru : Option Date
deriving DecidableEq, Repr

/-- The pandas boolean series before, that is dataset_raw[thru] <= start_date
(wrds_connection.py lines 94 and 97). A missing thru date compares false. -/
def beforeStart (start_date : Date) (r : IdxRow) : Bool :=
  match r.thru with
  | some t => decide (t ≤ start_date)
  | none => false

/-- The pandas boolean series after, that is dataset_raw[from] >= end_date
(wrds_connection.py lines 93 and 100). A missing joined date compares false. -/
def afterEnd (end_date : Date) (r : IdxRow) : Bool :=
  match r.joined with
  | some j => decide (j ≥ end_date)
  | none => false

/-- The observation-window filter of build_sp500, the if/elif/elif/else chain
on self.start_date and self.end_date (wrds_connection.py lines 89-103). -/
def windowFilter (start_date end_date : Option Date) (rows : List IdxRow) : List IdxRow :=
  match start_date, end_date with
  | some s, some e => rows.filter (fun r => !beforeStart s r && !afterEnd e r)
  | some s, none => rows.filter (fun r => !beforeStart s r)
  | none, some e => rows.filter (fun r => !afterEnd e r)
  | none, none => rows

/-- pandas drop_duplicates with subset gvkey and keep last
(wrds_connection.py line 107): of the rows sharing a gvkey, only the last
one in table order is retained, and the relative order of rows is kept. -/
def drop_duplicates_keep_last (rows : List IdxRow) : List IdxRow :=
  match rows with
  | [] => []
  | r :: rest =>
    if rest.any (fun q => q.gvkey == r.gvkey) then drop_duplicates_keep_last rest
    else r :: drop_duplicates_keep_last rest

/-- The core of build_sp500 once the S&P 500 rows have been selected:
window filtering (lines 89-103) followed by deduplication (line 107). -/
def resolve (start_date end_date : Option Date) (rows : List IdxRow) : List IdxRow :=
  drop_duplicates_keep_last (windowFilter start_date end_date rows)

/-- The last row of a list carrying a given gvkey, if any. Used to state the
keep-last deduplication policy. -/
def lastWith (k : String) : List IdxRow → Option IdxRow
  | [] => none
  | r :: rest =>
    match lastWith k rest with
    | some q => some q
    | none => if r.gvkey == k then some r else none

/-- A cell of a general DataFrame: a missing value (NaN/NaT/None), a string,
a date or a number. -/
inductive Cell where
  | missing : Cell
  | str : String → Cell
  | date : Date → Cell
  | num : Int → Cell
deriving DecidableEq, Repr

/-- A DataFrame row as an association list from column names to cells. -/
abbrev Row := List (String × Cell)

/-- The optional date d rendered as a cell. -/
def dateCell (d : Option Date) : Cell :=
  match d with
  | some x => Cell.date x
  | none => Cell.missing

/-- An idxcst_his row with its full set of columns. -/
def rawRow (r : IdxRow) : Row :=
  [("gvkey", Cell.str r.gvkey), ("gvkeyx", Cell.str r.gvkeyx),
   ("from", dateCell r.joined), ("thru", dateCell r.thru)]

/-- Column selection, as in dataset[[c1, c2]]: each row is restricted to the
named columns, in the order given. -/
def selectColumns (cols : List String) (rows : List Row) : List Row :=
  rows.map (fun r => cols.filterMap (fun c => (List.lookup c r).map (fun v => (c, v))))

/-- Column renaming of one row, as in DataFrame.rename. -/
def renameRow (m : List (String × String)) (r : Row) : Row :=
  r.map (fun p =>
    match List.lookup p.1 m with
    | some n => (n, p.2)
    | none => p)

/-- Column renaming of a whole DataFrame, as in DataFrame.rename. -/
def renameColumns (m : List (String × String)) (rows : List Row) : List Row :=
  rows.map (renameRow m)

/-- Whether a DataFrame has a column, as in c in list(dataset). In this row
model an empty DataFrame has no columns. -/
def hasCol (df : List Row) (c : String) : Bool :=
  df.any (fun r => r.any (fun p => p.1 == c))

/-- pandas left merge on the gvkey column: each left row is paired with every
matching right row (right rows stripped of their gvkey); with no match the
right columns other than gvkey are filled with missing values. rightCols
lists the columns of the right DataFrame. -/
def merge_on_gvkey (left right : List Row) (rightCols : List String) : List Row :=
  (left.map (fun r =>
    let ms := right.filter (fun q => decide (List.lookup "gvkey" q = List.lookup "gvkey" r))
    if ms.isEmpty then
      [r ++ (rightCols.filter (fun c => !(c == "gvkey"))).map (fun c => (c, Cell.missing))]
    else ms.map (fun q => r ++ q.filter (fun p => !(p.1 == "gvkey"))))).flatten

/-- Apply a function to one column of a DataFrame. -/
def mapCol (c : String) (f : Cell → Cell) (df : List Row) : List Row :=
  df.map (fun r => r.map (fun p => if p.1 == c then (p.1, f p.2) else p))

/-- Adding 1 to a numeric cell, as pandas does columnwise in add_exit_year;
a missing value stays missing. -/
def cellAdd1 : Cell → Cell
  | Cell.num n => Cell.num (n + 1)
  | c => c

/-- The full dataset produced by build_sp500 from the downloaded
constituents table: the gvkeyx filter of line 87, the resolution of lines
89-107, and the column handling of lines 109-114 (with drop_uninformative
the dataset keeps exactly the gvkey column; otherwise rename_columns renames
from and thru to joined_sp500 and left_sp500). -/
def build_sp500_dataset (start_date end_date : Option Date)
    (rename_columns drop_uninformative : Bool)
    (constituents_all_indexes : List IdxRow) : List Row :=
  let dataset_raw := constituents_all_indexes.filter (fun r => r.gvkeyx == "000003")
  let deduped := resolve start_date end_date dataset_raw
  let rowsOut := deduped.map rawRow
  if drop_uninformative then selectColumns ["gvkey"] rowsOut
  else if rename_columns then
    renameColumns [("from", "joined_sp500"), ("thru", "left_sp500")] rowsOut
  else rowsOut

/-- The remote WRDS database: the three tables the code fetches. -/
structure WrdsDb where
  idxcst_his : List IdxRow
  names : List Row
  company : List Row
deriving DecidableEq

/-- The mutable attributes of a WrdsConnection object (the db handle itself
is the external collaborator WrdsDb). The source fields _names_table and
_company_table are written without the leading underscore. -/
structure ConnState where
  username : String
  start_date : Option Date
  end_date : Option Date
  dataset : Option (List Row)
  names_table : Option (List Row)
  company_table : Option (List Row)
deriving DecidableEq

/-- The Python exceptions the embedded operations can signal. In the source
NoDatasetError is a subclass of AttributeError; attributeError stands for
the generic AttributeError raised when a method is looked up on None. -/
inductive PyError where
  | noDatasetError : String → PyError
  | attributeError : String → PyError
deriving DecidableEq

/-- Whether an operation result is the distinct no-data-available signal. -/
def isNoDatasetErr {α : Type} : Except PyError α → Bool
  | Except.error (PyError.noDatasetError _) => true
  | _ => false

/-- Whether an operation result is a generic attribute error. -/
def isAttributeErr {α : Type} : Except PyError α → Bool
  | Except.error (PyError.attributeError _) => true
  | _ => false

/-- Whether an operation result is a normal return. -/
def isOkResult {α : Type} : Except PyError α → Bool
  | Except.ok _ => true
  | _ => false

/-- set_observation_period (wrds_connection.py lines 62-71): both window
bounds are overwritten with the arguments, nothing else changes. An omitted
Python argument is the default None, here none. -/
def set_observation_period (start_date end_date : Option Date) (s : ConnState) : ConnState :=
  { s with start_date := start_date, end_date := end_date }

/-- _download_names_table (lines 242-250): fetch-once cache of the names
table. -/
def download_names_table (db : WrdsDb) (s : ConnState) : ConnState :=
  match s.names_table with
  | none => { s with names_table := some db.names }
  | some _ => s

/-- _download_company_table (lines 252-258): fetch-once cache of the company
table. -/
def download_company_table (db : WrdsDb) (s : ConnState) : ConnState :=
  match s.company_table with
  | none => { s with company_table := some db.company }
  | some _ => s

/-- build_sp500 as a state operation (lines 73-114): downloads the
constituents table and stores the resolved dataset. It has no failing
branch of its own. -/
def build_sp500 (db : WrdsDb) (rename_columns drop_uninformative : Bool)
    (s : ConnState) : Except PyError ConnState :=
  let ds :=
    build_sp500_dataset s.start_date s.end_date rename_columns drop_uninformative db.idxcst_his
  Except.ok { s with dataset := some ds }

/-- head (lines 116-124): raises NoDatasetError when no dataset is attached,
otherwise returns the first five rows. -/
def head (s : ConnState) : Except PyError (List Row) :=
  match s.dataset with
  | none => Except.error (PyError.noDatasetError "No dataset downloaded yet. Cannot display data head.")
  | some df => Except.ok (df.take 5)

/-- add_names (lines 126-139). The names table is downloaded first; with a
dataframe argument the merge is returned, otherwise it is saved back to the
dataset — and when the dataset is still None, Python raises a generic
AttributeError at the merge call on None, not NoDatasetError. -/
def add_names (db : WrdsDb) (dataframe : Option (List Row)) (s : ConnState) :
    Except PyError (ConnState × Option (List Row)) :=
  let s1 := download_names_table db s
  let names := selectColumns ["gvkey", "conm"] (s1.names_table.getD [])
  match dataframe with
  | some df => Except.ok (s1, some (merge_on_gvkey df names ["gvkey", "conm"]))
  | none =>
    match s1.dataset with
    | none => Except.error (PyError.attributeError "NoneType has no attribute merge")
    | some df =>
      let merged := (merge_on_gvkey df names ["gvkey", "conm"]).map (renameRow [("conm", "name")])
      Except.ok ({ s1 with dataset := some merged }, none)

/-- add_ticker (lines 141-147): no dataset check, so an unset dataset gives
a generic AttributeError at the merge on None. -/
def add_ticker (db : WrdsDb) (s : ConnState) : Except PyError ConnState :=
  let s1 := download_names_table db s
  match s1.dataset with
  | none => Except.error (PyError.attributeError "NoneType has no attribute merge")
  | some df =>
    let merged := merge_on_gvkey df (selectColumns ["gvkey", "tic"] (s1.names_table.getD []))
      ["gvkey", "tic"]
    Except.ok { s1 with dataset := some (merged.map (renameRow [("tic", "ticker")])) }

/-- add_cusip (lines 149-154): same shape as add_ticker, no rename. -/
def add_cusip (db : WrdsDb) (s : ConnState) : Except PyError ConnState :=
  let s1 := download_names_table db s
  match s1.dataset with
  | none => Except.error (PyError.attributeError "NoneType has no attribute merge")
  | some df =>
    let merged := merge_on_gvkey df (selectColumns ["gvkey", "cusip"] (s1.names_table.getD []))
      ["gvkey", "cusip"]
    Except.ok { s1 with dataset := some merged }

/-- add_cik (lines 156-161): same shape as add_cusip with the CIK column. -/
def add_cik (db : WrdsDb) (s : ConnState) : Except PyError ConnState :=
  let s1 := download_names_table db s
  match s1.dataset with
  | none => Except.error (PyError.attributeError "NoneType has no attribute merge")
  | some df =>
    let merged := merge_on_gvkey df (selectColumns ["gvkey", "CIK"] (s1.names_table.getD []))
      ["gvkey", "CIK"]
    Except.ok { s1 with dataset := some merged }

/-- add_exit_year (lines 163-172): merge year2, add 1 columnwise, rename to
exit_year. No dataset check, so an unset dataset gives AttributeError. -/
def add_exit_year (db : WrdsDb) (s : ConnState) : Except PyError ConnState :=
  let s1 := download_names_table db s
  match s1.dataset with
  | none => Except.error (PyError.attributeError "NoneType has no attribute merge")
  | some df =>
    let merged := merge_on_gvkey df (selectColumns ["gvkey", "year2"] (s1.names_table.getD []))
      ["gvkey", "year2"]
    let out := (mapCol "year2" cellAdd1 merged).map (renameRow [("year2", "exit_year")])
    Except.ok { s1 with dataset := some out }

/-- add_ipo_date (lines 174-180): merge ipodate and rename to ipo_date.
No dataset check, so an unset dataset gives AttributeError. -/
def add_ipo_date (db : WrdsDb) (s : ConnState) : Except PyError ConnState :=
  let s1 := download_names_table db s
  match s1.dataset with
  | none => Except.error (PyError.attributeError "NoneType has no attribute merge")
  | some df =>
    let merged := merge_on_gvkey df (selectColumns ["gvkey", "ipodate"] (s1.names_table.getD []))
      ["gvkey", "ipodate"]
    Except.ok { s1 with dataset := some (merged.map (renameRow [("ipodate", "ipo_date")])) }

/-- add_industry_classifiers (lines 182-227): raises NoDatasetError first
when no dataset is attached; otherwise merges SIC/NAICS and optionally the
GICS and S&P classifiers. The final nan replacement and categorical cast of
lines 219-227 do not change values in this cell model. -/
def add_industry_classifiers (db : WrdsDb) (get_GICS get_SP : Bool) (s : ConnState) :
    Except PyError ConnState :=
  match s.dataset with
  | none => Except.error (PyError.noDatasetError "No dataset downloaded yet. Cannot perform operation on dataset.")
  | some df0 =>
    let s1 := download_names_table db s
    let s2 := if get_GICS || get_SP then download_company_table db s1 else s1
    let names := s2.names_table.getD []
    let comp := s2.company_table.getD []
    let df1 :=
      if !hasCol df0 "SIC" then
        renameColumns [("sic", "SIC"), ("naics", "NAICS")]
          (merge_on_gvkey df0 (selectColumns ["gvkey", "sic", "naics"] names)
            ["gvkey", "sic", "naics"])
      else df0
    let df2 :=
      if get_GICS && !hasCol df1 "GICS_group" then
        renameColumns [("ggroup", "GICS_group"), ("gind", "GICS_industry"),
            ("gsector", "GICS_sector"), ("gsubind", "GICS_subindustry")]
          (merge_on_gvkey df1 (selectColumns ["gvkey", "ggroup", "gind", "gsector", "gsubind"] comp)
            ["gvkey", "ggroup", "gind", "gsector", "gsubind"])
      else df1
    let df3 :=
      if get_SP && !hasCol df2 "SP_industry" then
        renameColumns [("spcindcd", "SP_industry"), ("spcseccd", "SP_sector")]
          (merge_on_gvkey df2 (selectColumns ["gvkey", "spcindcd", "spcseccd"] comp)
            ["gvkey", "spcindcd", "spcseccd"])
      else df2
    Except.ok { s2 with dataset := some df3 }

/-- The industry_code argument of filter_by_industry: a single code or a
list of codes. -/
inductive IndustryCode where
  | strCode : String → IndustryCode
  | listCode : List String → IndustryCode
deriving DecidableEq

/-- filter_by_industry (lines 267-292): raises NoDatasetError first when no
dataset is attached; otherwise downloads missing classifier columns and
keeps the rows whose classifier matches. reset_index is a no-op in the list
model. -/
def filter_by_industry (db : WrdsDb) (industry_code : IndustryCode)
    (classification_system : String) (s : ConnState) : Except PyError ConnState :=
  match s.dataset with
  | none => Except.error (PyError.noDatasetError "No dataset downloaded yet. Cannot perform operation on dataset.")
  | some df0 => do
    let s1 ←
      if (classification_system == "SIC" || classification_system == "NAICS")
          && !hasCol df0 "SIC" then
        add_industry_classifiers db false false s
      else Except.ok s
    let s2 ←
      if (["GICS_group", "GICS_industry", "GICS_sector", "GICS_subindustry"].contains
            classification_system)
          && !hasCol (s1.dataset.getD []) "GICS_group" then
        add_industry_classifiers db true false s1
      else Except.ok s1
    let s3 ←
      if (classification_system == "SP_industry" || classification_system == "SP_sector")
          && !hasCol (s2.dataset.getD []) "SP_industry" then
        add_industry_classifiers db false true s2
      else Except.ok s2
    let df := s3.dataset.getD []
    let filtered :=
      match industry_code with
      | IndustryCode.strCode c =>
        df.filter (fun r => decide (List.lookup classification_system r = some (Cell.str c)))
      | IndustryCode.listCode cs =>
        df.filter (fun r =>
          match List.lookup classification_system r with
          | some (Cell.str v) => cs.contains v
          | _ => false)
    Except.ok { s3 with dataset := some filtered }

/-- Event A of the worked example: joined 2000-01-01, left 2010-01-01. -/
def eventA : IdxRow := ⟨"A", "000003", some 20000101, some 20100101⟩

/-- Event B of the worked example: joined 2005-01-01, open-ended. -/
def eventB : IdxRow := ⟨"B", "000003", some 20050101, none⟩

/-- Event C of the worked example: joined 2011-01-01, left 2012-01-01. -/
def eventC : IdxRow := ⟨"C", "000003", some 20110101, some 20120101⟩

/-- The worked example event table. -/
def demoEvents : List IdxRow := [eventA, eventB, eventC]

/-- An event whose left date equals a window start exactly. -/
def eventEdgeLeft : IdxRow := ⟨"D", "000003", some 20000101, some 20090101⟩

/-- An event whose joined date equals a window end exactly. -/
def eventEdgeJoin : IdxRow := ⟨"E", "000003", some 20110601, none⟩

/-- Two events sharing the gvkey A, to exercise deduplication. -/
def dupA1 : IdxRow := ⟨"A", "000003", some 19990101, some 20000101⟩

/-- The later of the two duplicated events. -/
def dupA2 : IdxRow := ⟨"A", "000003", some 20030101, none⟩

/-- A small table with a duplicated gvkey. -/
def demoDup : List IdxRow := [dupA1, dupA2]

/-- An empty database for concrete witnesses. -/
def db0 : WrdsDb := ⟨[], [], []⟩

/-- A fresh connection state: no window, no dataset, no caches. -/
def s0 : ConnState := ⟨"user", none, none, none, none, none⟩

/-- Deduplication only ever returns rows of its input. -/
theorem mem_of_mem_dedup {x : IdxRow} :
    ∀ {l : List IdxRow}, x ∈ drop_duplicates_keep_last l → x ∈ l := by
  intro l
  induction l with
  | nil => intro h; simp [drop_duplicates_keep_last] at h
  | cons r rest ih =>
    intro h
    simp only [drop_duplicates_keep_last] at h
    split at h
    · exact List.mem_cons_of_mem _ (ih h)
    · rcases List.mem_cons.mp h with h1 | h2
      · exact h1 ▸ List.mem_cons_self _ _
      · exact List.mem_cons_of_mem _ (ih h2)

/-- After deduplication every gvkey occurs at most once. -/
theorem dedup_keys_nodup (l : List IdxRow) :
    ((drop_duplicates_keep_last l).map IdxRow.gvkey).Nodup := by
  induction l with
  | nil => simp [drop_duplicates_keep_last]
  | cons r rest ih =>
    simp only [drop_duplicates_keep_last]
    split
    · exact ih
    · rename_i hc
      simp only [List.map_cons, List.nodup_cons]
      refine ⟨fun hmem => ?_, ih⟩
      rcases List.mem_map.mp hmem with ⟨q, hq, hkey⟩
      exact hc (List.any_eq_true.mpr ⟨q, mem_of_mem_dedup hq, by simp [hkey]⟩)

/-- A gvkey carried by no row of the list has no last occurrence. -/
theorem lastWith_eq_none {k : String} :
    ∀ {l : List IdxRow}, (∀ x ∈ l, x.gvkey ≠ k) → lastWith k l = none := by
  intro l
  induction l with
  | nil => intro _; rfl
  | cons r rest ih =>
    intro h
    simp only [lastWith]
    rw [ih (fun x hx => h x (List.mem_cons_of_mem _ hx))]
    have hr : (r.gvkey == k) = false := by
      simpa using h r (List.mem_cons_self _ _)
    simp [hr]

/-- Every row surviving deduplication is the last row of the input carrying
its gvkey. -/
theorem lastWith_of_mem_dedup {q : IdxRow} :
    ∀ {l : List IdxRow}, q ∈ drop_duplicates_keep_last l →
      lastWith q.gvkey l = some q := by
  intro l
  induction l with
  | nil => intro h; simp [drop_duplicates_keep_last] at h
  | cons r rest ih =>
    intro h
    simp only [drop_duplicates_keep_last] at h
    simp only [lastWith]
    split at h
    · rw [ih h]
    · rename_i hc
      rcases List.mem_cons.mp h with h1 | h2
      · subst h1
        have hnone : lastWith q.gvkey rest = none := by
          apply lastWith_eq_none
          intro x hx hxk
          exact hc (List.any_eq_true.mpr ⟨x, hx, by simp [hxk]⟩)
        rw [hnone]
        simp
      · rw [ih h2]

/-- Every gvkey present in the input is still present after deduplication. -/
theorem exists_key_in_dedup :
    ∀ (l : List IdxRow) (r : IdxRow), r ∈ l →
      ∃ q ∈ drop_duplicates_keep_last l, q.gvkey = r.gvkey := by
  intro l
  induction l with
  | nil => intro r h; simp at h
  | cons x rest ih =>
    intro r h
    simp only [drop_duplicates_keep_last]
    split
    · rename_i hc
      rcases List.mem_cons.mp h with h1 | h2
      · subst h1
        rcases List.any_eq_true.mp hc with ⟨y, hy, hkey⟩
        rcases ih y hy with ⟨q, hq, hqk⟩
        have hyk : y.gvkey = r.gvkey := by simpa using hkey
        exact ⟨q, hq, by rw [hqk, hyk]⟩
      · exact ih r h2
    · rcases List.mem_cons.mp h with h1 | h2
      · exact ⟨x, List.mem_cons_self _ _, by rw [h1]⟩
      · rcases ih r h2 with ⟨q, hq, hqk⟩
        exact ⟨q, List.mem_cons_of_mem _ hq, hqk⟩

/-- Deduplication leaves a list with pairwise distinct gvkeys unchanged. -/
theorem dedup_eq_self_of_keys_nodup :
    ∀ {l : List IdxRow}, (l.map IdxRow.gvkey).Nodup →
      drop_duplicates_keep_last l = l := by
  intro l
  induction l with
  | nil => intro _; rfl
  | cons r rest ih =>
    intro h
    simp only [List.map_cons, List.nodup_cons] at h
    have hc : ¬(rest.any (fun q => q.gvkey == r.gvkey) = true) := by
      intro hany
      rcases List.any_eq_true.mp hany with ⟨q, hq, hbeq⟩
      exact h.1 (List.mem_map.mpr ⟨q, hq, by simpa using hbeq⟩)
    simp only [drop_duplicates_keep_last]
    rw [if_neg hc, ih h.2]

/-- The window filter only ever returns rows of its input. -/
theorem mem_of_mem_windowFilter {sd ed : Option Date} {x : IdxRow} {l : List IdxRow}
    (h : x ∈ windowFilter sd ed l) : x ∈ l := by
  cases sd <;> cases ed <;> simp only [windowFilter] at h <;>
    first
      | exact h
      | exact (List.mem_filter.mp h).1

/-- Rows passing a filter with a supplied start date are not flagged before. -/
theorem beforeStart_false_of_mem {s : Date} {ed : Option Date} {x : IdxRow}
    {l : List IdxRow} (h : x ∈ windowFilter (some s) ed l) :
    beforeStart s x = false := by
  cases ed <;> simp only [windowFilter] at h <;>
    · have hp := (List.mem_filter.mp h).2
      simp only [Bool.and_eq_true, Bool.not_eq_true'] at hp
      first
        | exact hp
        | exact hp.1

/-- Rows passing a filter with a supplied end date are not flagged after. -/
theorem afterEnd_false_of_mem {e : Date} {sd : Option Date} {x : IdxRow}
    {l : List IdxRow} (h : x ∈ windowFilter sd (some e) l) :
    afterEnd e x = false := by
  cases sd <;> simp only [windowFilter] at h <;>
    · have hp := (List.mem_filter.mp h).2
      simp only [Bool.and_eq_true, Bool.not_eq_true'] at hp
      first
        | exact hp
        | exact hp.2

/-- Downloading the names table does not touch the dataset. -/
theorem download_names_dataset (db : WrdsDb) (s : ConnState) :
    (download_names_table db s).dataset = s.dataset := by
  simp only [download_names_table]
  split <;> rfl

/-- Claim C1: with a supplied start date, every event whose left date is
present and at most the start date (equality included) is absent from the
resolved result, and an event with an absent left date is never flagged by
the before rule. -/
theorem left_before_start_absent (s : Date) (ed : Option Date)
    (rows : List IdxRow) (r : IdxRow) :
    (∀ t, r.thru = some t → t ≤ s → r ∉ resolve (some s) ed rows) ∧
    (r.thru = none → beforeStart s r = false) := by
  constructor
  · intro t ht hle hmem
    have hmem2 : r ∈ windowFilter (some s) ed rows := mem_of_mem_dedup hmem
    have hfalse := beforeStart_false_of_mem hmem2
    rw [beforeStart, ht] at hfalse
    simp [hle] at hfalse
  · intro ht
    simp [beforeStart, ht]

/-- Claim C1 witness: an event whose left date equals the start date exactly
is excluded. -/
theorem left_before_start_absent_witness :
    eventEdgeLeft ∉ resolve (some 20090101) none [eventEdgeLeft] :=
  (left_before_start_absent 20090101 none [eventEdgeLeft] eventEdgeLeft).1
    20090101 rfl (by decide)

/-- Claim C2: with a supplied end date, every event whose joined date is
present and at least the end date (equality included) is absent from the
resolved result. -/
theorem joined_after_end_absent (e : Date) (sd : Option Date)
    (rows : List IdxRow) (r : IdxRow) :
    ∀ j, r.joined = some j → j ≥ e → r ∉ resolve sd (some e) rows := by
  intro j hj hge hmem
  have hmem2 : r ∈ windowFilter sd (some e) rows := mem_of_mem_dedup hmem
  have hfalse := afterEnd_false_of_mem hmem2
  rw [afterEnd, hj] at hfalse
  simp [hge] at hfalse

/-- Claim C2 witness: an event whose joined date equals the end date exactly
is excluded. -/
theorem joined_after_end_absent_witness :
    eventEdgeJoin ∉ resolve none (some 20110601) [eventEdgeJoin] :=
  joined_after_end_absent 20110601 none [eventEdgeJoin] eventEdgeJoin
    20110601 rfl (by decide)

/-- Claim C3: after resolution every gvkey occurs at most once; every
surviving event's gvkey is represented in the result, and the retained row
for a gvkey is the last one, in input order, among the events that survive
the window filter. -/
theorem dedup_exactly_last (sd ed : Option Date) (rows : List IdxRow) :
    ((resolve sd ed rows).map IdxRow.gvkey).Nodup ∧
    (∀ r ∈ windowFilter sd ed rows, ∃ q ∈ resolve sd ed rows, q.gvkey = r.gvkey) ∧
    (∀ q ∈ resolve sd ed rows, lastWith q.gvkey (windowFilter sd ed rows) = some q) := by
  refine ⟨dedup_keys_nodup _, ?_, ?_⟩
  · intro r hr
    exact exists_key_in_dedup _ r hr
  · intro q hq
    exact lastWith_of_mem_dedup hq

/-- Claim C3 witness: of two events sharing gvkey A, the later one is the
last occurrence and it is the one retained. -/
theorem dedup_exactly_last_witness :
    lastWith "A" (windowFilter none none demoDup) = some dupA2 :=
  (dedup_exactly_last none none demoDup).2.2 dupA2 (by decide)

/-- Claim C4 counterexample: on the worked example, event C survives the
resolution because its joined date 2011-01-01 is strictly before the window
end 2011-06-01, so the result is not the claimed entity set A, B. -/
theorem example_window_counterexample :
    eventC ∈ resolve (some 20090101) (some 20110601) demoEvents ∧
    (resolve (some 20090101) (some 20110601) demoEvents).map IdxRow.gvkey ≠ ["A", "B"] := by
  decide

/-- Claim C4 amended: on the worked example the resolution returns exactly
the entities A, B and C; C is retained since it joined before the window
end. -/
theorem example_window_amended :
    (resolve (some 20090101) (some 20110601) demoEvents).map IdxRow.gvkey = ["A", "B", "C"] := by
  decide

/-- Claim C5: with neither window bound supplied, the window filter passes
every input event through unchanged, so the resolution is deduplication of
the raw input. -/
theorem no_window_no_filtering (rows : List IdxRow) :
    windowFilter none none rows = rows ∧
    resolve none none rows = drop_duplicates_keep_last rows :=
  ⟨rfl, rfl⟩

/-- Claim C6: the resolution is idempotent; resolving its own output with
the same window returns it unchanged. -/
theorem resolve_idem (sd ed : Option Date) (rows : List IdxRow) :
    resolve sd ed (resolve sd ed rows) = resolve sd ed rows := by
  have hfix : windowFilter sd ed (resolve sd ed rows) = resolve sd ed rows := by
    cases sd with
    | none =>
      cases ed with
      | none => rfl
      | some e =>
        simp only [windowFilter]
        apply List.filter_eq_self.mpr
        intro x hx
        have hm : x ∈ windowFilter none (some e) rows := mem_of_mem_dedup hx
        simp only [windowFilter] at hm
        exact (List.mem_filter.mp hm).2
    | some s =>
      cases ed with
      | none =>
        simp only [windowFilter]
        apply List.filter_eq_self.mpr
        intro x hx
        have hm : x ∈ windowFilter (some s) none rows := mem_of_mem_dedup hx
        simp only [windowFilter] at hm
        exact (List.mem_filter.mp hm).2
      | some e =>
        simp only [windowFilter]
        apply List.filter_eq_self.mpr
        intro x hx
        have hm : x ∈ windowFilter (some s) (some e) rows := mem_of_mem_dedup hx
        simp only [windowFilter] at hm
        exact (List.mem_filter.mp hm).2
  calc resolve sd ed (resolve sd ed rows)
      = drop_duplicates_keep_last (windowFilter sd ed (resolve sd ed rows)) := rfl
    _ = drop_duplicates_keep_last (resolve sd ed rows) := by rw [hfix]
    _ = resolve sd ed rows := dedup_eq_self_of_keys_nodup (dedup_keys_nodup _)

/-- Claim C7 counterexample: on a fresh connection with no dataset,
add_ticker fails with the generic attribute error, not with the distinct
NoDatasetError the claim asserts for every dependent operation. -/
theorem no_dataset_signalling_counterexample :
    s0.dataset = none ∧ isNoDatasetErr (add_ticker db0 s0) = false ∧
    isAttributeErr (add_ticker db0 s0) = true :=
  ⟨rfl, rfl, rfl⟩

/-- Claim C7 amended: with the dataset unset, head, add_industry_classifiers
and filter_by_industry signal the distinct NoDatasetError; add_names without
a dataframe argument, add_ticker, add_cusip, add_cik, add_exit_year and
add_ipo_date instead fail with the generic attribute error; none of the nine
dependent operations silently returns data. -/
theorem no_dataset_signalling (db : WrdsDb) (g p : Bool) (code : IndustryCode)
    (cls : String) (s : ConnState) (h : s.dataset = none) :
    isNoDatasetErr (head s) = true ∧
    isNoDatasetErr (add_industry_classifiers db g p s) = true ∧
    isNoDatasetErr (filter_by_industry db code cls s) = true ∧
    isAttributeErr (add_names db none s) = true ∧
    isAttributeErr (add_ticker db s) = true ∧
    isAttributeErr (add_cusip db s) = true ∧
    isAttributeErr (add_cik db s) = true ∧
    isAttributeErr (add_exit_year db s) = true ∧
    isAttributeErr (add_ipo_date db s) = true := by
  have hd : (download_names_table db s).dataset = none := by
    rw [download_names_dataset, h]
  refine ⟨?_, ?_, ?_, ?_, ?_, ?_, ?_, ?_, ?_⟩
  · simp [head, h, isNoDatasetErr]
  · simp [add_industry_classifiers, h, isNoDatasetErr]
  · simp [filter_by_industry, h, isNoDatasetErr]
  · simp [add_names, hd, isAttributeErr]
  · simp [add_ticker, hd, isAttributeErr]
  · simp [add_cusip, hd, isAttributeErr]
  · simp [add_cik, hd, isAttributeErr]
  · simp [add_exit_year, hd, isAttributeErr]
  · simp [add_ipo_date, hd, isAttributeErr]

/-- Claim C7 amended witness: on a fresh connection, head signals the
distinct NoDatasetError. -/
theorem no_dataset_signalling_witness :
    isNoDatasetErr (head s0) = true :=
  (no_dataset_signalling db0 false false (IndustryCode.strCode "x") "SIC" s0 rfl).1

/-- Claim C8: build_sp500 itself never signals an error, and when no event
survives the window filter it stores the empty dataset as a valid result. -/
theorem resolution_total (db : WrdsDb) (rc du : Bool) (s : ConnState) :
    isOkResult (build_sp500 db rc du s) = true ∧
    (windowFilter s.start_date s.end_date
        (db.idxcst_his.filter (fun r => r.gvkeyx == "000003")) = [] →
      build_sp500 db rc du s = Except.ok { s with dataset := some [] }) := by
  refine ⟨rfl, ?_⟩
  intro h
  simp only [build_sp500, build_sp500_dataset, resolve, h, drop_duplicates_keep_last]
  cases du <;> cases rc <;> simp [selectColumns, renameColumns]

/-- Claim C8 witness: on an empty constituents table the stored dataset is
the empty list. -/
theorem resolution_total_witness :
    build_sp500 db0 true true s0 = Except.ok { s0 with dataset := some [] } :=
  (resolution_total db0 true true s0).2 rfl

/-- Claim C9: with drop_uninformative every row of the produced dataset has
exactly the single column gvkey and the rename flag has no effect; the
from and thru columns are renamed to joined_sp500 and left_sp500 exactly
when drop_uninformative is off and rename_columns is on. -/
theorem drop_uninformative_columns (sd ed : Option Date) (rc : Bool) (rows : List IdxRow) :
    (∀ row ∈ build_sp500_dataset sd ed rc true rows, row.map Prod.fst = ["gvkey"]) ∧
    build_sp500_dataset sd ed true true rows = build_sp500_dataset sd ed false true rows ∧
    build_sp500_dataset sd ed true false rows =
      renameColumns [("from", "joined_sp500"), ("thru", "left_sp500")]
        ((resolve sd ed (rows.filter (fun r => r.gvkeyx == "000003"))).map rawRow) ∧
    build_sp500_dataset sd ed false false rows =
      (resolve sd ed (rows.filter (fun r => r.gvkeyx == "000003"))).map rawRow := by
  refine ⟨?_, rfl, rfl, rfl⟩
  intro row hrow
  simp only [build_sp500_dataset, if_true, selectColumns, List.map_map, List.mem_map] at hrow
  rcases hrow with ⟨q, hq, rfl⟩
  rfl

/-- Claim C9 witness: the dataset built from the single event A has the one
row with the single column gvkey. -/
theorem drop_uninformative_columns_witness :
    ([("gvkey", Cell.str "A")] : Row).map Prod.fst = ["gvkey"] :=
  (drop_uninformative_columns none none true [eventA]).1
    [("gvkey", Cell.str "A")] (by decide)

/-- Claim C10: set_observation_period overwrites both window bounds with its
arguments, so an omitted argument resets that bound to none, and it leaves
the username, the dataset and both cached tables unchanged. -/
theorem set_observation_period_overwrites (s : ConnState) (sd ed : Option Date) :
    (set_observation_period sd ed s).start_date = sd ∧
    (set_observation_period sd ed s).end_date = ed ∧
    (set_observation_period sd ed s).username = s.username ∧
    (set_observation_period sd ed s).dataset = s.dataset ∧
    (set_observation_period sd ed s).names_table = s.names_table ∧
    (set_observation_period sd ed s).company_table = s.company_table :=
  ⟨rfl, rfl, rfl, rfl, rfl, rfl⟩

end WrdsTools
